import Mathlib

/-!
Shallow embedding of the correlation/deduplication engine of the
pass-mate backend (`correlationService`): candidate search, amount and
time matching, oracle-verdict parsing with defaults, best-verdict
selection with the confidence threshold, and the field-level merge.

Modelling conventions:
* JS numbers (amounts, confidences) are exact rationals `ℚ`.
* A JS `Date` is a `DateTime` record carrying exactly the observations
  the source reads from it: `getTime()` (epoch milliseconds),
  `getHours()/getMinutes()/getSeconds()` (local time of day) and
  `getDate()` (local day of month).
* Missing (`undefined`/`null`) fields are `Option.none`; the JS
  falsy-guard `x || y` on strings and numbers is `jsOrStr`/`jsOrNum`,
  which also treats `""` and `0` as missing, as JS does.
* Fallible externals (the record store, the oracle call, the JSON parse
  of the oracle text) are inputs of `Except`/`Option` type; the service
  functions are total Lean functions of those inputs.
-/

namespace PassMate

/-- Constructor constant `amountTolerance = 0.05`. -/
def amountTolerance : ℚ := 5 / 100

/-- Constructor constant `timeWindowHours = 1`. -/
def timeWindowHours : ℚ := 1

/-- Constructor constant `timeWindowDays = 1`. -/
def timeWindowDays : Int := 1

/-- The observations the source makes of a parsed `Date`. -/
structure DateTime where
  epochMs : Int
  hours : Nat
  minutes : Nat
  seconds : Nat
  dayOfMonth : Nat
deriving DecidableEq

/-- `hasPreciseTime`: a timestamp is precise unless its local
hours, minutes and seconds are all zero. -/
def hasPreciseTime (d : DateTime) : Bool :=
  !(d.hours = 0 && d.minutes = 0 && d.seconds = 0)

/-- `isTimeMatch`: hour window when both timestamps are precise,
otherwise day-of-month difference window. -/
def isTimeMatch (t1 t2 : DateTime) : Bool :=
  if hasPreciseTime t1 && hasPreciseTime t2 then
    decide ((|t1.epochMs - t2.epochMs| : ℚ) / (1000 * 60 * 60) ≤ timeWindowHours)
  else
    decide (|(t1.dayOfMonth : Int) - (t2.dayOfMonth : Int)| ≤ timeWindowDays)

/-- `isAmountMatch`: difference within 5 percent of the larger amount. -/
def isAmountMatch (amount1 amount2 : ℚ) : Bool :=
  let tolerance := max amount1 amount2 * amountTolerance
  let difference := |amount1 - amount2|
  decide (difference ≤ tolerance)

/-- A line item of a transaction; the merge only inspects `name`. -/
structure Item where
  name : Option String
  price : Option ℚ
deriving DecidableEq

/-- A provenance entry of a transaction. -/
structure SourceEntry where
  input_type : Option String
  uri : Option String
  added_at : String
deriving DecidableEq

/-- The `correlation_info` block written by a merge. -/
structure CorrelationInfo where
  merged_at : String
  correlation_type : String
  confidence : ℚ
  reason : Option String
  merged_transaction_id : String
deriving DecidableEq

/-- A transaction record as read from the store. -/
structure Transaction where
  id : Option String
  merchant : Option String
  amount : Option ℚ
  currency : Option String
  category : Option String
  timestamp : Option DateTime
  items : List Item
  sources : List SourceEntry
  correlation_id : Option String
  correlation_info : Option CorrelationInfo
  updated_at : Option String
deriving DecidableEq

/-- The `inputData` argument of a merge. -/
structure InputData where
  input_type : Option String
  metadata_uri : Option String
deriving DecidableEq

/-- A normalized per-candidate verdict, after default-filling. -/
structure Verdict where
  transaction_index : Option Int
  is_correlated : Bool
  confidence : ℚ
  correlation_type : String
  reason : Option String
  recommended_action : String
deriving DecidableEq

/-- A raw per-candidate verdict as parsed from oracle JSON; every
field may be missing. -/
structure RawVerdict where
  transaction_index : Option Int
  is_correlated : Option Bool
  confidence : Option ℚ
  correlation_type : Option String
  reason : Option String
  recommended_action : Option String
deriving DecidableEq

/-- JS truthiness of an optional string (`undefined`, `null` and `""`
are falsy). -/
def isTruthyStr : Option String → Bool
  | none => false
  | some s => decide (s ≠ "")

/-- `a || b` on JS string fields. -/
def jsOrStr (a b : Option String) : Option String :=
  match a with
  | none => b
  | some s => if s = "" then b else some s

/-- `a || b` on JS number fields (`0` is falsy). -/
def jsOrNum (a b : Option ℚ) : Option ℚ :=
  match a with
  | none => b
  | some x => if x = 0 then b else some x

/-- `inputData.metadata?.uri || null`. -/
def jsUri (u : Option String) : Option String :=
  match u with
  | none => none
  | some s => if s = "" then none else some s

/-- Amount match lifted to possibly-missing amounts: a missing amount
makes the JS comparison involve `NaN`, hence fail. -/
def isAmountMatchOpt : Option ℚ → Option ℚ → Bool
  | some a, some b => isAmountMatch a b
  | _, _ => false

/-- Time match lifted to possibly-missing timestamps: a missing or
invalid date makes every JS comparison fail. -/
def isTimeMatchOpt : Option DateTime → Option DateTime → Bool
  | some t, some u => isTimeMatch t u
  | _, _ => false

/-- `chooseBetterTimestamp`: keep the existing timestamp unless only
the new one carries time-of-day precision. -/
def chooseBetterTimestamp (existing newTimestamp : Option DateTime) : Option DateTime :=
  match existing with
  | none => newTimestamp
  | some e =>
    match newTimestamp with
    | none => some e
    | some n => if hasPreciseTime n && !hasPreciseTime e then some n else some e

/-- Lower-cased item name, with `undefined` names comparing equal. -/
def lname (i : Item) : Option String := i.name.map String.toLower

/-- One step of the `mergeItems` loop: append the new item unless an
item of the same (case-insensitive) name is already present. -/
def mergeItemsStep (merged : List Item) (newItem : Item) : List Item :=
  if merged.any (fun item => decide (lname item = lname newItem)) then merged
  else merged ++ [newItem]

/-- `mergeItems`: union of item lists by case-insensitive name. -/
def mergeItems (existingItems newItems : List Item) : List Item :=
  if existingItems.isEmpty then newItems
  else if newItems.isEmpty then existingItems
  else newItems.foldl mergeItemsStep existingItems

/-- The source entry `mergeTransactions` appends for the incoming data. -/
def mkSourceEntry (input : InputData) (now : String) : SourceEntry :=
  { input_type := input.input_type, uri := jsUri input.metadata_uri, added_at := now }

/-- `mergeTransactions`, as the state transformation it applies to the
winner record: the `mergedData` object written over the existing
transaction (`now` stands for `new Date().toISOString()`). -/
def mergeTransactions (existing newTx : Transaction) (inputData : InputData)
    (analysis : Verdict) (now : String) : Transaction :=
  { existing with
    sources := existing.sources ++ [mkSourceEntry inputData now]
    merchant := jsOrStr existing.merchant newTx.merchant
    amount := jsOrNum existing.amount newTx.amount
    currency := jsOrStr existing.currency newTx.currency
    category := jsOrStr existing.category newTx.category
    items := mergeItems existing.items newTx.items
    timestamp := chooseBetterTimestamp existing.timestamp newTx.timestamp
    correlation_info := some
      { merged_at := now
        correlation_type := analysis.correlation_type
        confidence := analysis.confidence
        reason := analysis.reason
        merged_transaction_id := newTx.id.getD "unknown" }
    updated_at := some now }

/-- `findPotentialMatches`: filter the store query result; a store read
failure is caught and turned into the empty candidate list. -/
def findPotentialMatches (newTx : Transaction)
    (stored : Except String (List Transaction)) : List Transaction :=
  match stored with
  | .error _ => []
  | .ok recentTransactions =>
    recentTransactions.filter (fun t =>
      !(decide (t.id = newTx.id)) &&
      !(isTruthyStr t.correlation_id || isTruthyStr newTx.correlation_id) &&
      isAmountMatchOpt newTx.amount t.amount &&
      isTimeMatchOpt newTx.timestamp t.timestamp)

/-- The default no-correlation verdict produced by every error path. -/
def defaultVerdict (idx : Int) (why : String) : Verdict :=
  { transaction_index := some idx
    is_correlated := false
    confidence := 0
    correlation_type := "unrelated"
    reason := some why
    recommended_action := "keep_separate" }

/-- The default raw verdict pushed while padding an under-count
response. -/
def defaultRawVerdict (idx : Int) (why : String) : RawVerdict :=
  { transaction_index := some idx
    is_correlated := some false
    confidence := some 0
    correlation_type := some "unrelated"
    reason := some why
    recommended_action := some "keep_separate" }

/-- The per-entry default-filling pass (`correlation.field =
correlation.field || default`). -/
def normalizeVerdict (raw : RawVerdict) : Verdict :=
  { transaction_index := raw.transaction_index
    is_correlated := raw.is_correlated.getD false
    confidence := raw.confidence.getD 0
    correlation_type :=
      match raw.correlation_type with
      | none => "unrelated"
      | some s => if s = "" then "unrelated" else s
    reason := raw.reason
    recommended_action :=
      match raw.recommended_action with
      | none => "keep_separate"
      | some s => if s = "" then "keep_separate" else s }

/-- `parseMultipleCorrelationResponse` over the outcome of the JSON
parse of the oracle text: outer `none` is a parse exception, inner
`none` is a missing or non-array `correlations` field. -/
def parseMultipleCorrelationResponse
    (parsed : Option (Option (List RawVerdict))) (expectedCount : Nat) : List Verdict :=
  match parsed with
  | none =>
    (List.range expectedCount).map
      (fun i : Nat => defaultVerdict (i + 1) "Failed to parse analysis")
  | some correlationsField =>
    let cs := correlationsField.getD []
    let padded := cs ++ (List.range (expectedCount - cs.length)).map
      (fun k : Nat => defaultRawVerdict (cs.length + k + 1) "No analysis provided")
    padded.map normalizeVerdict

/-- `analyzeMultipleCorrelationsWithGemini` over the outcome of the
oracle call: a thrown error is caught and replaced by defaults. -/
def analyzeMultipleCorrelationsWithGemini
    (oracle : Except String (Option (Option (List RawVerdict))))
    (numMatches : Nat) : List Verdict :=
  match oracle with
  | .error _ =>
    (List.range numMatches).map (fun i : Nat => defaultVerdict (i + 1) "Analysis failed")
  | .ok parsed => parseMultipleCorrelationResponse parsed numMatches

/-- The merge decision returned by `findCorrelations`. -/
structure CorrelationResult where
  action : String
  existing_transaction_id : Option String
  confidence : ℚ
  correlation_type : String
deriving DecidableEq

/-- The best-match loop of `findCorrelations`: walk the candidates with
their (possibly shorter) verdict list, keeping the first strictly
improving correlated verdict. -/
def selectBestAux : List Transaction → List Verdict →
    Option (Transaction × Verdict) → ℚ → Option (Transaction × Verdict) × ℚ
  | [], _, best, bestConfidence => (best, bestConfidence)
  | _ :: ts, [], best, bestConfidence => selectBestAux ts [] best bestConfidence
  | t :: ts, a :: as, best, bestConfidence =>
    if a.is_correlated && decide (bestConfidence < a.confidence) then
      selectBestAux ts as (some (t, a)) a.confidence
    else
      selectBestAux ts as best bestConfidence

/-- The decision step of `findCorrelations` (best match plus the
confidence-70 threshold). -/
def decideCorrelation (cands : List Transaction) (analyses : List Verdict) :
    Option CorrelationResult :=
  match selectBestAux cands analyses none 0 with
  | (some (t, a), bestConfidence) =>
    if 70 ≤ bestConfidence then
      some { action := "merged"
             existing_transaction_id := t.id
             confidence := bestConfidence
             correlation_type := a.correlation_type }
    else none
  | (none, _) => none

/-- The confidences of the correlated verdicts, aligned with their
candidates. -/
def correlatedConfidences (cands : List Transaction) (analyses : List Verdict) : List ℚ :=
  ((cands.zip analyses).filter (fun p => p.2.is_correlated)).map (fun p => p.2.confidence)

/-- `findCorrelations`, end to end over its external inputs: candidate
search against the store result, verdicts from the oracle outcome, then
the threshold decision (`none` is the standalone-persistence outcome). -/
def findCorrelationsRun (newTx : Transaction)
    (stored : Except String (List Transaction))
    (oracle : Except String (Option (Option (List RawVerdict)))) :
    Option CorrelationResult :=
  let potentialMatches := findPotentialMatches newTx stored
  if potentialMatches.isEmpty then none
  else
    decideCorrelation potentialMatches
      (analyzeMultipleCorrelationsWithGemini oracle potentialMatches.length)

/-! ### Concrete fixtures used by counterexamples and witnesses -/

/-- 2025-01-24 14:30:00 local, a time-bearing timestamp. -/
def dtPrecise : DateTime := ⟨1737729000000, 14, 30, 0, 24⟩

/-- 45 minutes after `dtPrecise`. -/
def dtP45b : DateTime := ⟨1737731700000, 15, 15, 0, 24⟩

/-- 90 minutes after `dtPrecise`. -/
def dtP90b : DateTime := ⟨1737734400000, 16, 0, 0, 24⟩

/-- 2025-01-15 at midnight (date-only). -/
def dtMid15 : DateTime := ⟨1736899200000, 0, 0, 0, 15⟩

/-- 2025-01-16 at midnight (date-only). -/
def dtMid16 : DateTime := ⟨1736985600000, 0, 0, 0, 16⟩

/-- 2025-01-17 at midnight (date-only). -/
def dtMid17 : DateTime := ⟨1737072000000, 0, 0, 0, 17⟩

/-- 2024-01-31 at midnight (date-only). -/
def dtJan31 : DateTime := ⟨1706659200000, 0, 0, 0, 31⟩

/-- 2024-02-01 at midnight (date-only), one elapsed day after
`dtJan31`. -/
def dtFeb01 : DateTime := ⟨1706745600000, 0, 0, 0, 1⟩

/-- A transaction with every field missing. -/
def baseTx : Transaction := ⟨none, none, none, none, none, none, [], [], none, none, none⟩

/-- An existing winner record. -/
def exWinner : Transaction :=
  { baseTx with
    id := some "tx-winner"
    merchant := some "Cafe X"
    amount := some 250
    currency := some "INR"
    timestamp := some dtPrecise }

/-- An incoming record that correlates with `exWinner`. -/
def exIncoming : Transaction :=
  { baseTx with
    id := some "tx-incoming"
    merchant := some "Cafe X"
    amount := some 252
    currency := some "INR"
    timestamp := some dtP45b
    items := [⟨some "Latte", some 252⟩] }

/-- The input data of the incoming record. -/
def exInput : InputData := ⟨some "email", none⟩

/-- An 88-percent same-purchase verdict. -/
def exVerdict : Verdict := ⟨some 1, true, 88, "same_purchase", some "same purchase", "merge"⟩

/-- A fixed wall-clock reading. -/
def exNow : String := "2025-01-24T15:00:00.000Z"

/-- Candidate classified `related` by the oracle. -/
def txRel : Transaction := { baseTx with id := some "tx-related" }

/-- Candidate classified `duplicate` by the oracle. -/
def txDup : Transaction := { baseTx with id := some "tx-duplicate" }

/-- Correlated verdict, confidence 80, classification `related`. -/
def vRel80 : Verdict := ⟨some 1, true, 80, "related", none, "merge"⟩

/-- Correlated verdict, confidence 80, classification `duplicate`. -/
def vDup80 : Verdict := ⟨some 2, true, 80, "duplicate", none, "merge"⟩

/-- A candidate for the threshold boundary. -/
def txW : Transaction := { baseTx with id := some "tx-cand" }

/-- Correlated verdict of confidence 69. -/
def vW69 : Verdict := ⟨some 1, true, 69, "duplicate", none, "merge"⟩

/-- Correlated verdict of confidence 70. -/
def vW70 : Verdict := ⟨some 1, true, 70, "duplicate", none, "merge"⟩

/-- A fresh incoming transaction, never merged. -/
def newTx8 : Transaction :=
  { baseTx with
    id := some "tx-new"
    amount := some 100
    timestamp := some dtPrecise }

/-- A stored record that carries a `correlation_id` from a prior
merge and matches `newTx8` on amount and time. -/
def storedPrior : Transaction :=
  { baseTx with
    id := some "tx-old"
    amount := some 100
    timestamp := some dtPrecise
    correlation_id := some "corr-prior" }

/-! ### Helper lemmas -/

theorem jsOrStr_self (b : Option String) : jsOrStr b b = b := by
  cases b with
  | none => rfl
  | some s => simp [jsOrStr]

theorem jsOrStr_idem (a b : Option String) : jsOrStr (jsOrStr a b) b = jsOrStr a b := by
  cases a with
  | none => exact jsOrStr_self b
  | some s =>
    by_cases h : s = ""
    · subst h
      have h1 : jsOrStr (some "") b = b := by simp [jsOrStr]
      rw [h1]
      exact jsOrStr_self b
    · have h1 : jsOrStr (some s) b = some s := by simp [jsOrStr, h]
      rw [h1]
      exact h1

theorem jsOrNum_self (b : Option ℚ) : jsOrNum b b = b := by
  cases b with
  | none => rfl
  | some x => simp [jsOrNum]

theorem jsOrNum_idem (a b : Option ℚ) : jsOrNum (jsOrNum a b) b = jsOrNum a b := by
  cases a with
  | none => exact jsOrNum_self b
  | some x =>
    by_cases h : x = 0
    · subst h
      have h1 : jsOrNum (some 0) b = b := by simp [jsOrNum]
      rw [h1]
      exact jsOrNum_self b
    · have h1 : jsOrNum (some x) b = some x := by simp [jsOrNum, h]
      rw [h1]
      exact h1

theorem chooseBetterTimestamp_idem (e n : Option DateTime) :
    chooseBetterTimestamp (chooseBetterTimestamp e n) n = chooseBetterTimestamp e n := by
  cases e with
  | none =>
    cases n with
    | none => rfl
    | some nn => simp [chooseBetterTimestamp]
  | some ee =>
    cases n with
    | none => rfl
    | some nn =>
      by_cases h : (hasPreciseTime nn && !hasPreciseTime ee) = true
      · simp [chooseBetterTimestamp, h]
      · simp [chooseBetterTimestamp, h]

theorem foldl_mergeItemsStep_append (l : List Item) (acc : List Item) :
    ∃ rest, l.foldl mergeItemsStep acc = acc ++ rest := by
  induction l generalizing acc with
  | nil => exact ⟨[], by simp⟩
  | cons x l ih =>
    have hstep : ∃ s, mergeItemsStep acc x = acc ++ s := by
      unfold mergeItemsStep
      split
      · exact ⟨[], by simp⟩
      · exact ⟨[x], rfl⟩
    rcases hstep with ⟨s, hs⟩
    rcases ih (mergeItemsStep acc x) with ⟨rest, hrest⟩
    exact ⟨s ++ rest, by rw [List.foldl_cons, hrest, hs, List.append_assoc]⟩

theorem any_foldl_mergeItemsStep (l : List Item) (acc : List Item)
    (p : Item → Bool) (h : acc.any p = true) :
    (l.foldl mergeItemsStep acc).any p = true := by
  rcases foldl_mergeItemsStep_append l acc with ⟨rest, hr⟩
  rw [hr, List.any_append, h, Bool.true_or]

theorem mem_lname_foldl (l : List Item) (x : Item) (hx : x ∈ l) :
    ∀ acc : List Item,
      (l.foldl mergeItemsStep acc).any (fun item => decide (lname item = lname x)) = true := by
  induction l with
  | nil => cases hx
  | cons y l ih =>
    intro acc
    rw [List.foldl_cons]
    rcases List.mem_cons.mp hx with rfl | hx'
    · apply any_foldl_mergeItemsStep
      unfold mergeItemsStep
      split
      · next h => exact h
      · rw [List.any_append]
        simp
    · exact ih hx' (mergeItemsStep acc y)

theorem foldl_mergeItemsStep_no_new (l acc : List Item)
    (h : ∀ x ∈ l, acc.any (fun item => decide (lname item = lname x)) = true) :
    l.foldl mergeItemsStep acc = acc := by
  induction l with
  | nil => rfl
  | cons x l ih =>
    rw [List.foldl_cons]
    have hx := h x (List.mem_cons_self x l)
    have hstep : mergeItemsStep acc x = acc := by
      unfold mergeItemsStep
      rw [if_pos hx]
    rw [hstep]
    exact ih (fun y hy => h y (List.mem_cons_of_mem x hy))

theorem mergeItems_of_ne (a b : List Item) (ha : a.isEmpty = false) (hb : b.isEmpty = false) :
    mergeItems a b = b.foldl mergeItemsStep a := by
  unfold mergeItems
  rw [if_neg (by simp [ha]), if_neg (by simp [hb])]

theorem mergeItems_idem (e n : List Item) : mergeItems (mergeItems e n) n = mergeItems e n := by
  cases hn : n.isEmpty with
  | true =>
    have hn' : n = [] := by
      cases n with
      | nil => rfl
      | cons a as => exact absurd hn (by simp)
    subst hn'
    cases he : e.isEmpty with
    | true =>
      have he' : e = [] := by
        cases e with
        | nil => rfl
        | cons a as => exact absurd he (by simp)
      subst he'
      rfl
    | false =>
      have h1 : mergeItems e [] = e := by
        simp [mergeItems, he]
      rw [h1]
      exact h1
  | false =>
    cases he : e.isEmpty with
    | true =>
      have he' : e = [] := by
        cases e with
        | nil => rfl
        | cons a as => exact absurd he (by simp)
      subst he'
      have h1 : mergeItems [] n = n := by
        simp [mergeItems]
      rw [h1]
      rw [mergeItems_of_ne n n hn hn]
      apply foldl_mergeItemsStep_no_new
      intro x hx
      exact List.any_eq_true.mpr ⟨x, hx, by simp⟩
    | false =>
      have hrest : ∃ rest, mergeItems e n = e ++ rest := by
        rw [mergeItems_of_ne e n he hn]
        exact foldl_mergeItemsStep_append n e
      rcases hrest with ⟨rest, hrest⟩
      have hme : (mergeItems e n).isEmpty = false := by
        rw [hrest]
        cases e with
        | nil => exact absurd he (by simp)
        | cons a as => simp
      rw [mergeItems_of_ne _ _ hme hn]
      apply foldl_mergeItemsStep_no_new
      intro x hx
      rw [mergeItems_of_ne e n he hn]
      exact mem_lname_foldl n x hx e

theorem correlatedConfidences_nil_right (ts : List Transaction) :
    correlatedConfidences ts [] = [] := by
  simp [correlatedConfidences]

theorem correlatedConfidences_cons (t : Transaction) (ts : List Transaction)
    (a : Verdict) (as : List Verdict) :
    correlatedConfidences (t :: ts) (a :: as)
      = if a.is_correlated then a.confidence :: correlatedConfidences ts as
        else correlatedConfidences ts as := by
  simp only [correlatedConfidences, List.zip_cons_cons, List.filter_cons]
  by_cases h : a.is_correlated = true
  · rw [if_pos h, if_pos h, List.map_cons]
  · rw [if_neg h, if_neg h]

theorem correlatedConfidences_tail_subset (t : Transaction) (ts : List Transaction)
    (a : Verdict) (as : List Verdict) (c : ℚ)
    (hc : c ∈ correlatedConfidences ts as) :
    c ∈ correlatedConfidences (t :: ts) (a :: as) := by
  rw [correlatedConfidences_cons]
  by_cases h : a.is_correlated = true
  · rw [if_pos h]
    exact List.mem_cons_of_mem _ hc
  · rw [if_neg h]
    exact hc

theorem selectBestAux_skip (ts : List Transaction) : ∀ (as : List Verdict)
    (best : Option (Transaction × Verdict)) (bc : ℚ),
    (∀ c ∈ correlatedConfidences ts as, c ≤ bc) →
    selectBestAux ts as best bc = (best, bc) := by
  induction ts with
  | nil =>
    intro as best bc _
    rfl
  | cons t ts ih =>
    intro as best bc h
    cases as with
    | nil =>
      rw [selectBestAux]
      exact ih [] best bc (by simp [correlatedConfidences_nil_right])
    | cons a as =>
      rw [selectBestAux]
      have hcond : (a.is_correlated && decide (bc < a.confidence)) = false := by
        by_cases hc : a.is_correlated = true
        · have hle : a.confidence ≤ bc := by
            apply h
            rw [correlatedConfidences_cons, if_pos hc]
            exact List.mem_cons_self _ _
          simp [hc, not_lt.mpr hle]
        · have hc' : a.is_correlated = false := by
            revert hc
            cases a.is_correlated <;> simp
          simp [hc']
      rw [hcond]
      simp only [Bool.false_eq_true, if_false]
      exact ih as best bc
        (fun c hc => h c (correlatedConfidences_tail_subset t ts a as c hc))

theorem selectBestAux_snd_cases (ts : List Transaction) : ∀ (as : List Verdict)
    (best : Option (Transaction × Verdict)) (bc : ℚ),
    (selectBestAux ts as best bc).2 = bc ∨
      (selectBestAux ts as best bc).2 ∈ correlatedConfidences ts as := by
  induction ts with
  | nil =>
    intro as best bc
    left
    rfl
  | cons t ts ih =>
    intro as best bc
    cases as with
    | nil =>
      rw [selectBestAux]
      rcases ih [] best bc with h | h
      · left
        exact h
      · rw [correlatedConfidences_nil_right] at h
        cases h
    | cons a as =>
      rw [selectBestAux]
      by_cases hcond : (a.is_correlated && decide (bc < a.confidence)) = true
      · rw [if_pos hcond]
        have hc : a.is_correlated = true := by
          have hcond2 := hcond
          simp only [Bool.and_eq_true] at hcond2
          exact hcond2.1
        rcases ih as (some (t, a)) a.confidence with h | h
        · right
          rw [correlatedConfidences_cons, if_pos hc, h]
          exact List.mem_cons_self _ _
        · right
          exact correlatedConfidences_tail_subset t ts a as _ h
      · rw [if_neg hcond]
        rcases ih as best bc with h | h
        · left
          exact h
        · right
          exact correlatedConfidences_tail_subset t ts a as _ h

theorem selectBestAux_first_max (m : ℚ) (ts : List Transaction) : ∀ (as : List Verdict)
    (best : Option (Transaction × Verdict)) (bc : ℚ) (p : Transaction × Verdict),
    bc < m →
    (∀ c ∈ correlatedConfidences ts as, c ≤ m) →
    (ts.zip as).find? (fun q => q.2.is_correlated && decide (q.2.confidence = m)) = some p →
    selectBestAux ts as best bc = (some p, m) := by
  induction ts with
  | nil =>
    intro as best bc p _ _ hfind
    simp at hfind
  | cons t ts ih =>
    intro as best bc p hbc hle hfind
    cases as with
    | nil =>
      simp at hfind
    | cons a as =>
      by_cases hp : (a.is_correlated && decide (a.confidence = m)) = true
      · rw [List.zip_cons_cons, List.find?_cons_of_pos _ (by simpa using hp)] at hfind
        have hpe : (t, a) = p := Option.some_inj.mp hfind
        have hp2 := hp
        simp only [Bool.and_eq_true] at hp2
        obtain ⟨hcorr, hconf⟩ := hp2
        have hconf' : a.confidence = m := of_decide_eq_true hconf
        rw [selectBestAux]
        have hcond : (a.is_correlated && decide (bc < a.confidence)) = true := by
          rw [hcorr, hconf']
          simp [hbc]
        rw [if_pos hcond, hpe, hconf']
        apply selectBestAux_skip
        intro c hc
        exact hle c (correlatedConfidences_tail_subset t ts a as c hc)
      · rw [List.zip_cons_cons, List.find?_cons_of_neg _ (by simpa using hp)] at hfind
        rw [selectBestAux]
        by_cases hcond : (a.is_correlated && decide (bc < a.confidence)) = true
        · rw [if_pos hcond]
          have hcond2 := hcond
          simp only [Bool.and_eq_true] at hcond2
          obtain ⟨hcorr, -⟩ := hcond2
          have hne : a.confidence ≠ m := by
            intro he
            exact hp (by rw [hcorr, he]; simp)
          have hlt : a.confidence < m := by
            refine lt_of_le_of_ne ?_ hne
            apply hle
            rw [correlatedConfidences_cons, if_pos hcorr]
            exact List.mem_cons_self _ _
          exact ih as (some (t, a)) a.confidence p hlt
            (fun c hc => hle c (correlatedConfidences_tail_subset t ts a as c hc)) hfind
        · rw [if_neg hcond]
          exact ih as best bc p hbc
            (fun c hc => hle c (correlatedConfidences_tail_subset t ts a as c hc)) hfind

/-! ### Claim theorems -/

/-- C1 counterexample: merging the same (winner, incoming) pair twice
does not yield the same winner state as merging it once — the second
merge appends the `sources` entry again (1 entry after one merge,
2 after two), even with an identical wall clock. -/
theorem merge_not_idempotent_counterexample :
    (mergeTransactions exWinner exIncoming exInput exVerdict exNow).sources.length = 1 ∧
    (mergeTransactions (mergeTransactions exWinner exIncoming exInput exVerdict exNow)
        exIncoming exInput exVerdict exNow).sources.length = 2 ∧
    mergeTransactions (mergeTransactions exWinner exIncoming exInput exVerdict exNow)
        exIncoming exInput exVerdict exNow
      ≠ mergeTransactions exWinner exIncoming exInput exVerdict exNow := by
  refine ⟨rfl, rfl, fun h => ?_⟩
  have h1 : (mergeTransactions exWinner exIncoming exInput exVerdict exNow).sources.length = 1 := rfl
  have h2 : (mergeTransactions (mergeTransactions exWinner exIncoming exInput exVerdict exNow)
      exIncoming exInput exVerdict exNow).sources.length = 2 := rfl
  rw [h, h1] at h2
  exact absurd h2 (by decide)

/-- C1 amended: a retry of the same merge (same incoming record, input
data, verdict and wall clock) leaves every winner field unchanged —
in particular no item is duplicated — except `sources`, to which the
incoming source entry is appended a second time. -/
theorem mergeTransactions_retry (existing newTx : Transaction) (inputData : InputData)
    (analysis : Verdict) (now : String) :
    mergeTransactions (mergeTransactions existing newTx inputData analysis now)
        newTx inputData analysis now
      = { mergeTransactions existing newTx inputData analysis now with
          sources := (mergeTransactions existing newTx inputData analysis now).sources
            ++ [mkSourceEntry inputData now] } := by
  simp [mergeTransactions, Transaction.mk.injEq, jsOrStr_idem, jsOrNum_idem,
    mergeItems_idem, chooseBetterTimestamp_idem]

/-- C5 counterexample: two date-only timestamps exactly one elapsed
day apart, but across a month boundary (2024-01-31 and 2024-02-01),
are not time-matched, because the code compares day-of-month numbers. -/
theorem timeMatch_month_boundary_counterexample :
    hasPreciseTime dtJan31 = false ∧
    hasPreciseTime dtFeb01 = false ∧
    dtFeb01.epochMs - dtJan31.epochMs = 86400000 ∧
    isTimeMatch dtJan31 dtFeb01 = false := by
  refine ⟨rfl, rfl, rfl, ?_⟩
  decide

/-- C5 amended: with both timestamps time-bearing the pair matches
exactly when at most one hour apart (45 minutes in, 90 minutes out);
with either date-only, the pair matches exactly when the day-of-month
numbers differ by at most 1 — within one month this is the one-day
rule (1 day in, 2 days out), but it does not track elapsed time
across month boundaries. -/
theorem isTimeMatch_windows :
    (∀ t u : DateTime, hasPreciseTime t = true → hasPreciseTime u = true →
      (isTimeMatch t u = true ↔ |t.epochMs - u.epochMs| ≤ 3600000)) ∧
    (∀ t u : DateTime, hasPreciseTime t = false ∨ hasPreciseTime u = false →
      (isTimeMatch t u = true ↔ |(t.dayOfMonth : Int) - (u.dayOfMonth : Int)| ≤ 1)) ∧
    isTimeMatch dtPrecise dtP45b = true ∧
    isTimeMatch dtPrecise dtP90b = false ∧
    isTimeMatch dtMid15 dtMid16 = true ∧
    isTimeMatch dtMid15 dtMid17 = false := by
  have hpart1 : ∀ t u : DateTime, hasPreciseTime t = true → hasPreciseTime u = true →
      (isTimeMatch t u = true ↔ |t.epochMs - u.epochMs| ≤ 3600000) := by
    intro t u h1 h2
    simp only [isTimeMatch, h1, h2, Bool.and_self, if_true, decide_eq_true_eq,
      timeWindowHours]
    rw [div_le_one (by norm_num), show ((1000:ℚ) * 60 * 60) = 3600000 by norm_num]
    constructor
    · intro h
      exact_mod_cast h
    · intro h
      exact_mod_cast h
  have hpart2 : ∀ t u : DateTime, hasPreciseTime t = false ∨ hasPreciseTime u = false →
      (isTimeMatch t u = true ↔ |(t.dayOfMonth : Int) - (u.dayOfMonth : Int)| ≤ 1) := by
    intro t u h
    have hcond : (hasPreciseTime t && hasPreciseTime u) = false := by
      rcases h with h | h <;> simp [h]
    simp only [isTimeMatch, hcond, Bool.false_eq_true, if_false, decide_eq_true_eq,
      timeWindowDays]
  refine ⟨hpart1, hpart2, ?_, ?_, by decide, by decide⟩
  · exact (hpart1 dtPrecise dtP45b (by decide) (by decide)).mpr (by decide)
  · cases hb : isTimeMatch dtPrecise dtP90b with
    | false => rfl
    | true => exact absurd ((hpart1 dtPrecise dtP90b (by decide) (by decide)).mp hb) (by decide)

/-- C5 amended witness at concrete inputs: both halves of the window
characterization applied to a precise pair 45 minutes apart and to a
midnight pair two day-numbers apart. -/
theorem isTimeMatch_windows_witness :
    (isTimeMatch dtPrecise dtP45b = true ↔ |dtPrecise.epochMs - dtP45b.epochMs| ≤ 3600000) ∧
    (isTimeMatch dtMid15 dtMid17 = true ↔
      |(dtMid15.dayOfMonth : Int) - (dtMid17.dayOfMonth : Int)| ≤ 1) := by
  constructor
  · exact isTimeMatch_windows.1 dtPrecise dtP45b (by decide) (by decide)
  · exact isTimeMatch_windows.2.1 dtMid15 dtMid17 (Or.inl (by decide))

/-- C6: the amount test accepts exactly when the absolute difference
is at most 5 percent of the larger amount; 1000 vs 1049 is within
tolerance and 1000 vs 1060 is not. -/
theorem isAmountMatch_tolerance :
    (∀ a1 a2 : ℚ, isAmountMatch a1 a2 = true ↔ |a1 - a2| ≤ max a1 a2 * (5 / 100)) ∧
    isAmountMatch 1000 1049 = true ∧
    isAmountMatch 1000 1060 = false := by
  have hiff : ∀ a1 a2 : ℚ, isAmountMatch a1 a2 = true ↔ |a1 - a2| ≤ max a1 a2 * (5 / 100) := by
    intro a1 a2
    simp [isAmountMatch, amountTolerance]
  refine ⟨hiff, ?_, ?_⟩
  · apply (hiff 1000 1049).mpr
    rw [abs_sub_comm, abs_of_nonneg (by norm_num : (0:ℚ) ≤ 1049 - 1000),
      max_eq_right (by norm_num : (1000:ℚ) ≤ 1049)]
    norm_num
  · cases hb : isAmountMatch 1000 1060 with
    | false => rfl
    | true =>
      have h60 := (hiff 1000 1060).mp hb
      rw [abs_sub_comm, abs_of_nonneg (by norm_num : (0:ℚ) ≤ 1060 - 1000),
        max_eq_right (by norm_num : (1000:ℚ) ≤ 1060)] at h60
      norm_num at h60

/-- C9 counterexample: on a store read failure the candidate search
returns the empty list and the whole correlation attempt returns the
standalone outcome `none` — indistinguishable from an empty store,
with no error surfaced. -/
theorem storeFailure_swallowed_counterexample :
    findPotentialMatches newTx8 (.error "store unavailable") = [] ∧
    findCorrelationsRun newTx8 (.error "store unavailable") (.ok (some (some []))) = none ∧
    findCorrelationsRun newTx8 (.error "store unavailable") (.ok (some (some [])))
      = findCorrelationsRun newTx8 (.ok []) (.ok (some (some []))) := by
  exact ⟨rfl, rfl, rfl⟩

/-- C9 amended: a store read failure during candidate search is
swallowed, not propagated: the candidate search yields `[]`, the
correlation attempt returns `none` (caller persists standalone), and
the outcome equals that of an empty store result. -/
theorem storeFailure_swallowed (tx : Transaction) (e : String)
    (oracle : Except String (Option (Option (List RawVerdict)))) :
    findPotentialMatches tx (.error e) = [] ∧
    findCorrelationsRun tx (.error e) oracle = none ∧
    findCorrelationsRun tx (.error e) oracle = findCorrelationsRun tx (.ok []) oracle := by
  exact ⟨rfl, rfl, rfl⟩

/-- C10: a timestamp whose local hours, minutes and seconds are all
zero is date-only: it is never precise, any pair involving it is
matched under the day window, and during merge timestamp resolution it
loses to any time-bearing timestamp on either side. -/
theorem midnight_is_date_only (t u : DateTime)
    (h1 : t.hours = 0) (h2 : t.minutes = 0) (h3 : t.seconds = 0) :
    hasPreciseTime t = false ∧
    isTimeMatch t u = decide (|(t.dayOfMonth : Int) - (u.dayOfMonth : Int)| ≤ 1) ∧
    isTimeMatch u t = decide (|(u.dayOfMonth : Int) - (t.dayOfMonth : Int)| ≤ 1) ∧
    (hasPreciseTime u = true →
      chooseBetterTimestamp (some t) (some u) = some u ∧
      chooseBetterTimestamp (some u) (some t) = some u) := by
  have hp : hasPreciseTime t = false := by
    simp [hasPreciseTime, h1, h2, h3]
  refine ⟨hp, ?_, ?_, ?_⟩
  · simp [isTimeMatch, hp, timeWindowDays]
  · simp [isTimeMatch, hp, timeWindowDays]
  · intro hu
    constructor
    · simp [chooseBetterTimestamp, hu, hp]
    · simp [chooseBetterTimestamp, hu, hp]

/-- C10 witness: the midnight timestamp 2025-01-15T00:00 against the
time-bearing 2025-01-24 14:30 timestamp. -/
theorem midnight_is_date_only_witness :
    hasPreciseTime dtMid15 = false ∧
    isTimeMatch dtMid15 dtPrecise
      = decide (|(dtMid15.dayOfMonth : Int) - (dtPrecise.dayOfMonth : Int)| ≤ 1) ∧
    isTimeMatch dtPrecise dtMid15
      = decide (|(dtPrecise.dayOfMonth : Int) - (dtMid15.dayOfMonth : Int)| ≤ 1) ∧
    (hasPreciseTime dtPrecise = true →
      chooseBetterTimestamp (some dtMid15) (some dtPrecise) = some dtPrecise ∧
      chooseBetterTimestamp (some dtPrecise) (some dtMid15) = some dtPrecise) := by
  exact midnight_is_date_only dtMid15 dtPrecise rfl rfl rfl

/-- C3: with `m` the best confidence among correlated verdicts, the
decision is `none` whenever `m ≤ 69`, and whenever `70 ≤ m` a merge is
executed whose confidence is exactly `m`. -/
theorem findCorrelations_threshold (cands : List Transaction) (analyses : List Verdict)
    (m : ℚ)
    (hm : m ∈ correlatedConfidences cands analyses)
    (hbest : ∀ c ∈ correlatedConfidences cands analyses, c ≤ m) :
    (m ≤ 69 → decideCorrelation cands analyses = none) ∧
    (70 ≤ m → (decideCorrelation cands analyses).map CorrelationResult.confidence = some m) := by
  constructor
  · intro h69
    unfold decideCorrelation
    rcases hsel : selectBestAux cands analyses none 0 with ⟨best, bc⟩
    cases best with
    | none =>
      rfl
    | some pa =>
      obtain ⟨pt, pv⟩ := pa
      show (if 70 ≤ bc then
          some ({ action := "merged", existing_transaction_id := pt.id,
                  confidence := bc, correlation_type := pv.correlation_type } : CorrelationResult)
        else none) = none
      rw [if_neg]
      intro h70
      have hcases := selectBestAux_snd_cases cands analyses none 0
      rw [hsel] at hcases
      rcases hcases with h | h
      · simp only at h
        rw [h] at h70
        norm_num at h70
      · have hle := hbest bc h
        linarith
  · intro h70
    have hmem := hm
    simp only [correlatedConfidences, List.mem_map, List.mem_filter] at hmem
    obtain ⟨q, ⟨hqzip, hqcorr⟩, hqc⟩ := hmem
    have hfind : ((cands.zip analyses).find?
        (fun q => q.2.is_correlated && decide (q.2.confidence = m))).isSome = true := by
      rw [List.find?_isSome]
      exact ⟨q, hqzip, by simp [hqcorr, hqc]⟩
    obtain ⟨p, hp⟩ := Option.isSome_iff_exists.mp hfind
    obtain ⟨pt, pv⟩ := p
    have hsel := selectBestAux_first_max m cands analyses none 0 (pt, pv)
      (by linarith) hbest hp
    unfold decideCorrelation
    rw [hsel]
    show Option.map CorrelationResult.confidence
      (if 70 ≤ m then
        some ({ action := "merged", existing_transaction_id := pt.id,
                confidence := m, correlation_type := pv.correlation_type } : CorrelationResult)
      else none) = some m
    rw [if_pos h70]
    rfl

/-- C3 witness: a single candidate with a correlated verdict of
confidence 69 is not merged; at confidence 70 a merge with confidence
70 is executed. -/
theorem findCorrelations_threshold_witness :
    decideCorrelation [txW] [vW69] = none ∧
    (decideCorrelation [txW] [vW70]).map CorrelationResult.confidence = some 70 := by
  constructor
  · refine (findCorrelations_threshold [txW] [vW69] 69 ?_ ?_).1 (by norm_num)
    · simp [correlatedConfidences, vW69]
    · intro c hc
      simp [correlatedConfidences, vW69] at hc
      rw [hc]
  · refine (findCorrelations_threshold [txW] [vW70] 70 ?_ ?_).2 (by norm_num)
    · simp [correlatedConfidences, vW70]
    · intro c hc
      simp [correlatedConfidences, vW70] at hc
      rw [hc]

/-- C4 counterexample: two correlated verdicts share the maximum
confidence 80; the first candidate is classified `related`, the second
`duplicate`, yet the decision selects the first (`related`) candidate —
there is no duplicate-over-related (nor recency) tie-breaking. -/
theorem tieBreak_counterexample :
    vRel80.is_correlated = true ∧ vRel80.confidence = 80 ∧
    vRel80.correlation_type = "related" ∧
    vDup80.is_correlated = true ∧ vDup80.confidence = 80 ∧
    vDup80.correlation_type = "duplicate" ∧
    decideCorrelation [txRel, txDup] [vRel80, vDup80]
      = some { action := "merged", existing_transaction_id := some "tx-related",
               confidence := 80, correlation_type := "related" } := by
  refine ⟨rfl, rfl, rfl, rfl, rfl, rfl, ?_⟩
  have hsel : selectBestAux [txRel, txDup] [vRel80, vDup80] none 0
      = (some (txRel, vRel80), 80) := by
    rw [selectBestAux]
    rw [if_pos (by norm_num [vRel80])]
    rw [selectBestAux]
    rw [if_neg (by norm_num [vRel80, vDup80])]
    rfl
  unfold decideCorrelation
  rw [hsel]
  show (if (70:ℚ) ≤ 80 then
      some ({ action := "merged", existing_transaction_id := txRel.id,
              confidence := 80, correlation_type := vRel80.correlation_type } : CorrelationResult)
    else none)
    = some ({ action := "merged", existing_transaction_id := some "tx-related",
              confidence := 80, correlation_type := "related" } : CorrelationResult)
  rw [if_pos (by norm_num)]
  rfl

/-- C4 amended: among correlated verdicts the highest confidence `m`
wins, and when several share `m` the selected candidate is the
earliest such pair in candidate-list order (the first match of the
search); classification and record recency play no part. -/
theorem findCorrelations_first_max_wins (cands : List Transaction) (analyses : List Verdict)
    (m : ℚ) (p : Transaction × Verdict)
    (hbest : ∀ c ∈ correlatedConfidences cands analyses, c ≤ m)
    (h70 : 70 ≤ m)
    (hfind : (cands.zip analyses).find?
      (fun q => q.2.is_correlated && decide (q.2.confidence = m)) = some p) :
    decideCorrelation cands analyses
      = some { action := "merged", existing_transaction_id := p.1.id,
               confidence := m, correlation_type := p.2.correlation_type } := by
  obtain ⟨pt, pv⟩ := p
  have hsel := selectBestAux_first_max m cands analyses none 0 (pt, pv)
    (by linarith) hbest hfind
  unfold decideCorrelation
  rw [hsel]
  show (if 70 ≤ m then
      some ({ action := "merged", existing_transaction_id := pt.id,
              confidence := m, correlation_type := pv.correlation_type } : CorrelationResult)
    else none)
    = some ({ action := "merged", existing_transaction_id := (pt, pv).1.id,
              confidence := m, correlation_type := (pt, pv).2.correlation_type } : CorrelationResult)
  rw [if_pos h70]

/-- C4 amended witness: with two confidence-80 verdicts the first
aligned correlated pair is selected. -/
theorem findCorrelations_first_max_wins_witness :
    decideCorrelation [txRel, txDup] [vRel80, vDup80]
      = some { action := "merged", existing_transaction_id := (txRel, vRel80).1.id,
               confidence := 80, correlation_type := (txRel, vRel80).2.correlation_type } := by
  refine findCorrelations_first_max_wins [txRel, txDup] [vRel80, vDup80] 80
    (txRel, vRel80) ?_ (by norm_num) ?_
  · intro c hc
    have hc80 : c = 80 := by
      simpa [correlatedConfidences, vRel80, vDup80] using hc
    rw [hc80]
  · rw [List.zip_cons_cons, List.find?_cons_of_pos _ (by norm_num [vRel80])]

/-- C7: the gateway self-heals — on parse failure every candidate gets
the default no-correlation verdict; on under-count the missing tail
entries are the same default; on an oracle-call error every candidate
gets the default; all paths return a plain verdict list (no exception
reaches the caller). -/
theorem oracleGateway_selfHealing :
    (∀ n : Nat, (parseMultipleCorrelationResponse none n).length = n ∧
      ∀ v ∈ parseMultipleCorrelationResponse none n,
        v.is_correlated = false ∧ v.confidence = 0 ∧
        v.correlation_type = "unrelated" ∧ v.recommended_action = "keep_separate") ∧
    (∀ (cf : Option (List RawVerdict)) (n : Nat),
      (parseMultipleCorrelationResponse (some cf) n).length = max n (cf.getD []).length ∧
      ∀ i : Nat, (cf.getD []).length ≤ i →
        ∀ v : Verdict, (parseMultipleCorrelationResponse (some cf) n).get? i = some v →
          v.is_correlated = false ∧ v.confidence = 0 ∧
          v.correlation_type = "unrelated" ∧ v.recommended_action = "keep_separate") ∧
    (∀ (e : String) (n : Nat),
      (analyzeMultipleCorrelationsWithGemini (.error e) n).length = n ∧
      ∀ v ∈ analyzeMultipleCorrelationsWithGemini (.error e) n,
        v.is_correlated = false ∧ v.confidence = 0 ∧
        v.correlation_type = "unrelated" ∧ v.recommended_action = "keep_separate") := by
  refine ⟨?_, ?_, ?_⟩
  · intro n
    constructor
    · simp only [parseMultipleCorrelationResponse, List.length_map, List.length_range]
    · intro v hv
      simp only [parseMultipleCorrelationResponse, List.mem_map] at hv
      obtain ⟨i, -, rfl⟩ := hv
      exact ⟨rfl, rfl, rfl, rfl⟩
  · intro cf n
    constructor
    · have hlen : (parseMultipleCorrelationResponse (some cf) n).length
          = (cf.getD []).length + (n - (cf.getD []).length) := by
        simp only [parseMultipleCorrelationResponse, List.length_map, List.length_append,
          List.length_range]
      rw [hlen]
      omega
    · intro i hi v hv
      simp only [parseMultipleCorrelationResponse] at hv
      rw [List.map_append, List.get?_append_right (by simpa using hi)] at hv
      rw [List.length_map, List.get?_map, List.get?_map] at hv
      rcases hk : (List.range (n - (cf.getD []).length)).get? (i - (cf.getD []).length) with - | k
      · rw [hk] at hv
        cases hv
      · rw [hk] at hv
        obtain rfl : normalizeVerdict
            (defaultRawVerdict ((cf.getD []).length + k + 1) "No analysis provided") = v :=
          Option.some_inj.mp hv
        refine ⟨rfl, rfl, ?_, ?_⟩
        · simp [normalizeVerdict, defaultRawVerdict]
        · simp [normalizeVerdict, defaultRawVerdict]
  · intro e n
    constructor
    · simp only [analyzeMultipleCorrelationsWithGemini, List.length_map, List.length_range]
    · intro v hv
      simp only [analyzeMultipleCorrelationsWithGemini, List.mem_map] at hv
      obtain ⟨i, -, rfl⟩ := hv
      exact ⟨rfl, rfl, rfl, rfl⟩

/-- C7 witness: a 3-candidate batch under a parse failure, an
under-count (empty `correlations` array) and an oracle-call error —
in each case the concrete verdict carries the default fields. -/
theorem oracleGateway_selfHealing_witness :
    ((defaultVerdict 1 "Failed to parse analysis").is_correlated = false ∧
      (defaultVerdict 1 "Failed to parse analysis").confidence = 0 ∧
      (defaultVerdict 1 "Failed to parse analysis").correlation_type = "unrelated" ∧
      (defaultVerdict 1 "Failed to parse analysis").recommended_action = "keep_separate") ∧
    ((normalizeVerdict (defaultRawVerdict 1 "No analysis provided")).is_correlated = false ∧
      (normalizeVerdict (defaultRawVerdict 1 "No analysis provided")).confidence = 0 ∧
      (normalizeVerdict (defaultRawVerdict 1 "No analysis provided")).correlation_type
        = "unrelated" ∧
      (normalizeVerdict (defaultRawVerdict 1 "No analysis provided")).recommended_action
        = "keep_separate") ∧
    ((defaultVerdict 1 "Analysis failed").is_correlated = false ∧
      (defaultVerdict 1 "Analysis failed").confidence = 0 ∧
      (defaultVerdict 1 "Analysis failed").correlation_type = "unrelated" ∧
      (defaultVerdict 1 "Analysis failed").recommended_action = "keep_separate") := by
  refine ⟨?_, ?_, ?_⟩
  · refine (oracleGateway_selfHealing.1 3).2 (defaultVerdict 1 "Failed to parse analysis") ?_
    simp only [parseMultipleCorrelationResponse, List.mem_map]
    exact ⟨0, by simp, rfl⟩
  · refine (oracleGateway_selfHealing.2.1 (some []) 3).2 0 (by simp) _ ?_
    rfl
  · refine (oracleGateway_selfHealing.2.2 "timeout" 3).2 (defaultVerdict 1 "Analysis failed") ?_
    simp only [analyzeMultipleCorrelationsWithGemini, List.mem_map]
    exact ⟨0, by simp, rfl⟩

/-- C8 counterexample: a stored record carrying a `correlationId` from
a prior merge, matching the incoming transaction on amount and time,
is nevertheless not returned by the candidate search. -/
theorem priorMerge_excluded_counterexample :
    storedPrior.correlation_id = some "corr-prior" ∧
    newTx8.correlation_id = none ∧
    isAmountMatchOpt newTx8.amount storedPrior.amount = true ∧
    isTimeMatchOpt newTx8.timestamp storedPrior.timestamp = true ∧
    storedPrior.id ≠ newTx8.id ∧
    findPotentialMatches newTx8 (.ok [storedPrior]) = [] := by
  refine ⟨rfl, rfl, ?_, ?_, by decide, by decide⟩
  · show isAmountMatch 100 100 = true
    simp only [isAmountMatch, amountTolerance, decide_eq_true_eq]
    norm_num
  · show isTimeMatch dtPrecise dtPrecise = true
    simp only [isTimeMatch, hasPreciseTime, dtPrecise, timeWindowHours]
    norm_num

/-- C8 amended: a record is a candidate exactly when it is in the
store window, has a different id, neither side carries a (truthy)
`correlation_id`, and amount and time match — so a record with a
`correlationId` from a prior merge is excluded by the Candidate
Finder itself. -/
theorem findPotentialMatches_mem (newTx : Transaction) (recent : List Transaction)
    (r : Transaction) :
    r ∈ findPotentialMatches newTx (.ok recent) ↔
      r ∈ recent ∧ r.id ≠ newTx.id ∧
      isTruthyStr r.correlation_id = false ∧ isTruthyStr newTx.correlation_id = false ∧
      isAmountMatchOpt newTx.amount r.amount = true ∧
      isTimeMatchOpt newTx.timestamp r.timestamp = true := by
  simp [findPotentialMatches, List.mem_filter, and_assoc]

end PassMate
